import Mathlib

/-!
Shallow embedding of the Telegram engagement-points bot (`src/bot.js`).

The bot keeps two SQLite tables, `users` and `links`, mutated by command
handlers, a callback-query handler and two cron sweeps.  We model the
database as explicit Lean state (`DB`), every outbound Telegram call as an
`Effect`, and each handler as a pure function `... → DB × List Effect`.
Timestamps are integer Unix seconds (SQLite `strftime` arithmetic works on
whole seconds).  Point balances are `Int`: the code never clamps and a
penalized user can go negative.

Modelling scope notes (the source is JavaScript):
* `bot.onText(regex, h)` fires `h` whenever `regex` matches anywhere in the
  message text; the flat command patterns (`/\/start/` etc.) therefore test
  substring containment, which we model exactly.  The `/droplink` pattern
  `\/droplink (.+) (.+)` is modelled for single-line messages that start
  with the command, the shape every claim exercises; `.` does not match a
  newline in JavaScript, so multi-line messages are out of scope here.
* The generic `bot.on("message")` AI handler returns early for texts that
  start with `/` after trimming; otherwise it calls `getUser` and sends the
  external model's reply.  The reply text comes from the network, so the
  effect is modelled as an opaque `Effect.aiReply`.
* The callback handler's `pointsMap[action] || 0` is a JavaScript property
  lookup: for action kinds that are property names inherited from
  `Object.prototype` (`constructor`, `toString`, ...) it returns the
  inherited truthy member, the `|| 0` fallback does not fire, and
  `addPoints` throws while binding the non-numeric value — aborting the
  handler after `getUser` but before the activity touch and the
  notifications.  `earnedOf` models the lookup and `callbackHandler`
  models the aborted run (state as left at the throw, no effects).
-/

namespace EngageBot

/-- A row of the `users` table: `id INTEGER PRIMARY KEY, username TEXT,
points INTEGER DEFAULT 0, last_active DATETIME DEFAULT CURRENT_TIMESTAMP,
warned INTEGER DEFAULT 0`. -/
structure User where
  id : Nat
  username : String
  points : Int
  last_active : Nat
  warned : Bool
deriving Repr, DecidableEq

/-- A row of the `links` table: `id INTEGER PRIMARY KEY AUTOINCREMENT,
user_id INTEGER, url TEXT, title TEXT, created_at DATETIME DEFAULT
CURRENT_TIMESTAMP`. -/
structure Link where
  id : Nat
  user_id : Nat
  url : String
  title : String
  created_at : Nat
deriving Repr, DecidableEq

/-- The persisted database: the two tables plus the AUTOINCREMENT counter
for `links.id`. -/
structure DB where
  users : List User
  links : List Link
  nextLinkId : Nat
deriving Repr, DecidableEq

/-- An outbound Telegram API call made by a handler. -/
inductive Effect where
  | sendMessage (chatId : Nat) (text : String)
  | answerCallback (text : String)
  | aiReply (chatId : Nat)
deriving Repr, DecidableEq

/-- Query `SELECT * FROM users WHERE id = ?` (first matching row). -/
def findUser (db : DB) (id : Nat) : Option User :=
  db.users.find? (fun u => u.id == id)

/-- Helper `getUser(id, username)` from bot.js: select the row, and if absent run
`INSERT INTO users (id, username, points) VALUES (?, ?, 0)` (the inserted
row stores `username || "unknown"`, `last_active` defaults to now and
`warned` to 0) and return the in-memory object
`{ id, username, points: 0, last_active: new Date(), warned: 0 }`, which
keeps the raw `username`. -/
def getUser (now : Nat) (db : DB) (id : Nat) (username : String) : DB × User :=
  match findUser db id with
  | some u => (db, u)
  | none =>
      let stored : User :=
        ⟨id, if username = "" then "unknown" else username, 0, now, false⟩
      ({ db with users := db.users ++ [stored] }, ⟨id, username, 0, now, false⟩)

/-- Statement `UPDATE users SET last_active = CURRENT_TIMESTAMP, warned = 0 WHERE id = ?`. -/
def updateActivity (now : Nat) (db : DB) (id : Nat) : DB :=
  { db with
    users := db.users.map (fun u =>
      if u.id == id then { u with last_active := now, warned := false } else u) }

/-- Statement `UPDATE users SET points = points + ? WHERE id = ?`. -/
def addPoints (db : DB) (id : Nat) (amount : Int) : DB :=
  { db with
    users := db.users.map (fun u =>
      if u.id == id then { u with points := u.points + amount } else u) }

/-- Statement `UPDATE users SET points = points - ? WHERE id = ?`. -/
def deductPoints (db : DB) (id : Nat) (amount : Int) : DB :=
  { db with
    users := db.users.map (fun u =>
      if u.id == id then { u with points := u.points - amount } else u) }

/-- Statement `INSERT INTO links (user_id, url, title) VALUES (?, ?, ?)`: the id is
assigned by AUTOINCREMENT and `created_at` defaults to now. -/
def recordLink (now : Nat) (db : DB) (ownerId : Nat) (url title : String) : DB :=
  { db with
    links := db.links ++ [⟨db.nextLinkId, ownerId, url, title, now⟩],
    nextLinkId := db.nextLinkId + 1 }

/-! ### The `/droplink` argument regex

`bot.onText(/\/droplink (.+) (.+)/, ...)` with `url = match[1]`,
`title = match[2]`.  Both groups are greedy, so on a single-line message
starting with `/droplink ` the first group captures everything up to the
LAST space that still leaves a non-empty second group, and the second group
captures the remainder. -/

/-- Strip an expected literal prefix from a character list, returning the
remainder on success (the anchored part `\/droplink␣` of the regex). -/
def stripCmd : List Char → List Char → Option (List Char)
  | [], cs => some cs
  | _ :: _, [] => none
  | p :: ps, c :: cs => if p == c then stripCmd ps cs else none

/-- Split a character list at the LAST space that has a non-empty suffix,
the split a greedy `(.+) (.+)` backtracks to.  Returns the prefix (possibly
empty — the caller rejects that, since `(.+)` needs one character) and the
suffix after the space. -/
def splitLastSpace : List Char → Option (List Char × List Char)
  | [] => none
  | c :: cs =>
      match splitLastSpace cs with
      | some (p, t) => some (c :: p, t)
      | none => if c == ' ' && cs ≠ [] then some (([] : List Char), cs) else none

/-- The `/droplink` message parse: `some (url, title)` exactly when the
regex `\/droplink (.+) (.+)` matches (single-line text starting with the
command), with `url = match[1]` and `title = match[2]`. -/
def parseDroplink (text : String) : Option (String × String) :=
  match stripCmd "/droplink ".toList text.toList with
  | none => none
  | some rest =>
      match splitLastSpace rest with
      | none => none
      | some (p, t) => if p = [] then none else some (String.mk p, String.mk t)

/-! ### Message texts and policy constants -/

/-- The link posting cost: `const cost = 1000`. -/
def LINK_POST_COST : Int := 1000

/-- Reply text `❌ Not enough points. ...` of the `/droplink` handler. -/
def insufficientMsg (points : Int) : String :=
  "❌ Not enough points. You need 1000 points, but you only have "
    ++ toString points ++ "."

/-- Reply text `✅ Your link has been posted: ...` of the `/droplink` handler. -/
def postedMsg (title url : String) : String :=
  "✅ Your link has been posted:\n\n<b>" ++ title ++ "</b>\n" ++ url

/-- String-keyed properties every JavaScript object literal inherits from
`Object.prototype`: looking one of these up on `pointsMap` yields the
inherited function (or, for `__proto__`, the prototype object), which is
truthy, so the `|| 0` fallback does NOT replace it.  Composed with the
`split("_")[0]` action extraction only the underscore-free names
(`constructor`, `toString`, ...) are reachable, but the lookup itself
behaves this way on every such key. -/
def objectProtoProps : List String :=
  ["constructor", "hasOwnProperty", "isPrototypeOf", "propertyIsEnumerable",
   "toLocaleString", "toString", "valueOf", "__defineGetter__",
   "__defineSetter__", "__lookupGetter__", "__lookupSetter__", "__proto__"]

/-- Result of evaluating `pointsMap[action] || 0` in the callback handler:
either a number to credit, or a truthy member inherited from
`Object.prototype` — a function/object, not a number, which later makes
`addPoints` throw when better-sqlite3 refuses to bind it. -/
inductive Earned where
  | num (n : Int)
  | inherited
deriving Repr, DecidableEq

/-- Expression `pointsMap[action] || 0` over the object literal
`{ like: 200, comment: 350, repost: 500 }`: the three own properties give
their numbers, keys inherited from `Object.prototype` give the truthy
inherited member, and every other key gives `undefined`, which `|| 0`
turns into 0. -/
def earnedOf (action : String) : Earned :=
  if action = "like" then .num 200
  else if action = "comment" then .num 350
  else if action = "repost" then .num 500
  else if action ∈ objectProtoProps then .inherited
  else .num 0


/-- Warning text of the 48h cron job. -/
def warnMsg : String :=
  "⚠️ You’ve been inactive for over 48 hours. Engage soon to avoid losing 100 points!"

/-- Penalty text of the 72h cron job. -/
def penaltyMsg : String :=
  "❌ You lost 100 points due to inactivity."

/-! ### Handlers (one per `bot.onText` / `bot.on` registration) -/

/-- The `/start` handler. -/
def startHandler (now : Nat) (db : DB) (fromId : Nat) (username firstName : String)
    (chatId : Nat) : DB × List Effect :=
  let (db1, user) := getUser now db fromId username
  (db1,
   [Effect.sendMessage chatId
      ("👋 Welcome, " ++ (if firstName = "" then "friend" else firstName)
        ++ "!\nYou have " ++ toString user.points
        ++ " points.\nUse /browse to view links or /droplink to share yours.")])

/-- The `/profile` handler. -/
def profileHandler (now : Nat) (db : DB) (fromId : Nat) (username : String)
    (chatId : Nat) : DB × List Effect :=
  let (db1, user) := getUser now db fromId username
  (db1,
   [Effect.sendMessage chatId
      ("📊 Profile for @" ++ (if user.username = "" then "unknown" else user.username)
        ++ "\nPoints: " ++ toString user.points
        ++ "\nLast active: " ++ toString user.last_active)])

/-- The `/droplink` handler body, after the regex has produced `url` and
`title`: get-or-create the user; if `user.points < cost` reply with the
insufficient-funds message and stop; else deduct 1000 points, insert the
link, touch activity and confirm. -/
def droplinkHandler (now : Nat) (db : DB) (fromId : Nat) (username : String)
    (chatId : Nat) (url title : String) : DB × List Effect :=
  let (db1, user) := getUser now db fromId username
  if user.points < LINK_POST_COST then
    (db1, [Effect.sendMessage chatId (insufficientMsg user.points)])
  else
    let db2 := deductPoints db1 user.id LINK_POST_COST
    let db3 := recordLink now db2 user.id url title
    let db4 := updateActivity now db3 user.id
    (db4, [Effect.sendMessage chatId (postedMsg title url)])

/-- Descending insertion by `created_at` (newest first; on a tie the new
element goes first — SQLite leaves the order of equal keys unspecified, so
any tie order refutes or satisfies the same ordering claims). -/
def insertByCreatedDesc (l : Link) : List Link → List Link
  | [] => [l]
  | x :: xs =>
      if x.created_at ≤ l.created_at then l :: x :: xs
      else x :: insertByCreatedDesc l xs

/-- Sort links by `created_at` descending (insertion sort). -/
def sortByCreatedDesc : List Link → List Link
  | [] => []
  | x :: xs => insertByCreatedDesc x (sortByCreatedDesc xs)

/-- Query `SELECT * FROM links ORDER BY created_at DESC LIMIT ?`. -/
def recentLinks (db : DB) (limit : Nat) : List Link :=
  (sortByCreatedDesc db.links).take limit

/-- The `/browse` handler: fetch the 10 most recent links; if none, reply
"No links available yet."; else send one message per link (the inline
keyboard is UI detail carried by the message). -/
def browseHandler (db : DB) (chatId : Nat) : DB × List Effect :=
  let links := recentLinks db 10
  if links.isEmpty then
    (db, [Effect.sendMessage chatId "No links available yet."])
  else
    (db, links.map (fun l =>
      Effect.sendMessage chatId ("<b>" ++ l.title ++ "</b>\n" ++ l.url)))

/-- Expression `query.data.split("_")[0]`: the characters before the first `_` (the
whole string when there is none, the empty string when it starts with `_`). -/
def actionOf (data : String) : String :=
  String.mk (data.toList.takeWhile (fun c => !(c == '_')))

/-- Whether the callback handler for this `query.data` throws:
`addPoints(user.id, earned)` raises a binding error exactly when `earned`
is the inherited non-numeric member. -/
def callbackThrows (data : String) : Bool :=
  match earnedOf (actionOf data) with
  | .inherited => true
  | .num _ => false

/-- The `callback_query` handler: split the data on `_` to get the action,
get-or-create the user, evaluate `pointsMap[action] || 0`, then
`addPoints`, `updateActivity`, the acknowledgment and the broadcast.  When
the lookup hits an inherited `Object.prototype` member, `addPoints` throws
while binding it: `getUser`'s INSERT has already happened, but no points
change, no activity touch and neither notification occurs. -/
def callbackHandler (now : Nat) (db : DB) (fromId : Nat) (username : String)
    (chatId : Nat) (data : String) : DB × List Effect :=
  let (db1, user) := getUser now db fromId username
  match earnedOf (actionOf data) with
  | .inherited => (db1, [])
  | .num earned =>
      let db2 := addPoints db1 user.id earned
      let db3 := updateActivity now db2 user.id
      (db3,
       [Effect.answerCallback ("+" ++ toString earned ++ " points!"),
        Effect.sendMessage chatId
          ("@" ++ (if user.username = "" then "User" else user.username)
            ++ " earned " ++ toString earned ++ " points!")])

/-- Query `SELECT COUNT(*) FROM users`. -/
def countUsers (db : DB) : Nat := db.users.length

/-- Query `SELECT COUNT(*) FROM links`. -/
def countLinks (db : DB) : Nat := db.links.length

/-- Query `SELECT SUM(points) AS total FROM users` followed by `|| 0`: the SQL
sum is NULL on an empty table and the JavaScript `|| 0` turns it into 0,
which is exactly the fold below. -/
def sumAllPoints (db : DB) : Int :=
  (db.users.map User.points).sum

/-- The `/stats` handler: a sender whose id differs from the configured
`ADMIN_ID` is silently ignored (early `return`, no reply, no mutation). -/
def statsHandler (db : DB) (fromId adminId : Nat) (chatId : Nat) : DB × List Effect :=
  if fromId ≠ adminId then (db, [])
  else
    (db,
     [Effect.sendMessage chatId
        ("📈 <b>Bot Stats</b>\nUsers: " ++ toString (countUsers db)
          ++ "\nLinks: " ++ toString (countLinks db)
          ++ "\nTotal Points: " ++ toString (sumAllPoints db))])

/-- Whitespace as trimmed by JavaScript `trim()`, restricted to the
characters a Telegram text can realistically carry. -/
def isWS (c : Char) : Bool := c == ' ' || c == '\t' || c == '\n' || c == '\r'

/-- Expression `text.trim()` on the character list. -/
def trimChars (cs : List Char) : List Char :=
  ((cs.dropWhile isWS).reverse.dropWhile isWS).reverse

/-- The generic `message` handler (AI relay): skip empty texts and texts
starting with `/` after trimming; otherwise get-or-create the user and send
the external model's reply (or the fallback) — either way one outbound
message whose text comes from outside the program. -/
def messageHandler (now : Nat) (db : DB) (fromId : Nat) (username : String)
    (chatId : Nat) (text : String) : DB × List Effect :=
  let t := trimChars text.toList
  if t.isEmpty || t.headD ' ' == '/' then (db, [])
  else
    let (db1, _user) := getUser now db fromId username
    (db1, [Effect.aiReply chatId])

/-! ### Cron sweeps -/

/-- Row filter of the hourly warn sweep:
`warned = 0 AND (strftime now - strftime last_active) > 172800`. -/
def warnQualifies (now : Nat) (u : User) : Bool :=
  u.warned = false && now - u.last_active > 172800

/-- The hourly cron job: select the unwarned users inactive for more than
172800 seconds, send each a warning and set `warned = 1` on each selected
id. -/
def warnSweep (now : Nat) (db : DB) : DB × List Effect :=
  let selected := db.users.filter (warnQualifies now)
  ({ db with
     users := db.users.map (fun u =>
       if warnQualifies now u then { u with warned := true } else u) },
   selected.map (fun u => Effect.sendMessage u.id warnMsg))

/-- Row filter of the half-hourly penalty sweep:
`(strftime now - strftime last_active) > 259200` — no `warned` condition
and no once-only guard. -/
def penaltyQualifies (now : Nat) (u : User) : Bool :=
  now - u.last_active > 259200

/-- The half-hourly cron job: select the users inactive for more than
259200 seconds, deduct 100 points from each and send each a penalty
notification. -/
def penaltySweep (now : Nat) (db : DB) : DB × List Effect :=
  let selected := db.users.filter (penaltyQualifies now)
  ({ db with
     users := db.users.map (fun u =>
       if penaltyQualifies now u then { u with points := u.points - 100 } else u) },
   selected.map (fun u => Effect.sendMessage u.id penaltyMsg))

/-! ### Event dispatch

`node-telegram-bot-api` runs every `onText` handler whose regex matches the
text, in registration order, and then every `message` listener.  A
`callback_query` event reaches only the callback handler. -/

/-- One inbound Telegram event. -/
inductive Event where
  | textMsg (fromId : Nat) (username firstName : String) (chatId : Nat) (text : String)
  | buttonPress (fromId : Nat) (username : String) (chatId : Nat) (data : String)
deriving Repr, DecidableEq

/-- Substring containment on character lists (how an unanchored flat regex
such as `/\/start/` matches a text). -/
def containsSeq (pat : List Char) : List Char → Bool
  | [] => pat.isEmpty
  | c :: cs => isPrefixSeq pat (c :: cs) || containsSeq pat cs
where
  isPrefixSeq : List Char → List Char → Bool
    | [], _ => true
    | _ :: _, [] => false
    | a :: as, b :: bs => a == b && isPrefixSeq as bs

/-- Whether `pat` occurs somewhere in `s`. -/
def strContains (s pat : String) : Bool :=
  containsSeq pat.toList s.toList

/-- Run a handler after an accumulated prefix of handlers, threading the
database and appending the effects. -/
def andThen (s : DB × List Effect) (h : DB → DB × List Effect) : DB × List Effect :=
  let r := h s.1
  (r.1, s.2 ++ r.2)

/-- Dispatch one event through every registered handler, in the order the
source registers them: `/start`, `/profile`, `/droplink`, `/browse`,
`/stats`, then the generic message handler. -/
def step (now adminId : Nat) (db : DB) (e : Event) : DB × List Effect :=
  match e with
  | .buttonPress fromId username chatId data =>
      callbackHandler now db fromId username chatId data
  | .textMsg fromId username firstName chatId text =>
      let s0 : DB × List Effect := (db, [])
      let s1 := if strContains text "/start" then
          andThen s0 (fun d => startHandler now d fromId username firstName chatId) else s0
      let s2 := if strContains text "/profile" then
          andThen s1 (fun d => profileHandler now d fromId username chatId) else s1
      let s3 := match parseDroplink text with
        | some (url, title) =>
            andThen s2 (fun d => droplinkHandler now d fromId username chatId url title)
        | none => s2
      let s4 := if strContains text "/browse" then
          andThen s3 (fun d => browseHandler d chatId) else s3
      let s5 := if strContains text "/stats" then
          andThen s4 (fun d => statsHandler d fromId adminId chatId) else s4
      andThen s5 (fun d => messageHandler now d fromId username chatId text)

/-- Number of `sendMessage chatId text` effects in a list (how often one
given outbound message was sent). -/
def countSend (id : Nat) (t : String) (effs : List Effect) : Nat :=
  effs.countP (fun e => decide (e = Effect.sendMessage id t))

/-- Newest-first: the right element was created no later than the left. -/
def linkGE (a b : Link) : Prop := b.created_at ≤ a.created_at

/-! ### Concrete states used by witnesses and counterexamples -/

/-- Fresh database, as after schema creation. -/
def dbEmpty : DB := ⟨[], [], 0⟩

/-- A user who can afford a link post. -/
def richUser : User := ⟨7, "bob", 1500, 3, false⟩

def dbRich : DB := ⟨[richUser], [], 0⟩

/-- A user who cannot afford a link post. -/
def poorUser : User := ⟨8, "amy", 400, 3, false⟩

def dbPoor : DB := ⟨[poorUser], [], 0⟩

/-- The spec scenario user: balance exactly 1000. -/
def dbDrop : DB := ⟨[⟨7, "bob", 1000, 3, false⟩], [], 0⟩

/-- An unwarned user last active at time 0. -/
def idleUser : User := ⟨1, "ann", 0, 0, false⟩

def dbIdle : DB := ⟨[idleUser], [], 0⟩

/-- An already-warned user last active at time 0. -/
def idleWarned : User := ⟨2, "cid", 50, 0, true⟩

def dbIdleWarned : DB := ⟨[idleWarned], [], 0⟩

/-- Two links created in the same second (CURRENT_TIMESTAMP has one-second
granularity, so two `/droplink`s in one second collide). -/
def linkT1 : Link := ⟨1, 7, "http://a", "A", 100⟩

def linkT2 : Link := ⟨2, 7, "http://b", "B", 100⟩

def dbTie : DB := ⟨[], [linkT1, linkT2], 3⟩

/-! ### Lemmas about row updates keyed by predicate -/

theorem find?_map_pred (users : List User) (f : Nat) (u : User)
    (c : User → Bool) (g : User → User) (hg : ∀ v, (g v).id = v.id)
    (h : users.find? (fun v => v.id == f) = some u) :
    (users.map (fun v => if c v then g v else v)).find? (fun v => v.id == f)
      = some (if c u then g u else u) := by
  induction users with
  | nil => simp at h
  | cons v vs ih =>
      have hid : (if c v then g v else v).id = v.id := by
        by_cases hc : c v <;> simp [hc, hg]
      rw [List.find?_cons] at h
      simp only [List.map_cons, List.find?_cons, hid]
      cases hv : (v.id == f) with
      | true =>
          simp only [hv] at h
          injection h with h
          subst h
          simp
      | false =>
          simp only [hv] at h
          simp only [ih h]

theorem find?_append_new (users : List User) (f : Nat) (w : User)
    (h : users.find? (fun v => v.id == f) = none) (hw : (w.id == f) = true) :
    (users ++ [w]).find? (fun v => v.id == f) = some w := by
  induction users with
  | nil => simp [List.find?_cons, hw]
  | cons v vs ih =>
      rw [List.find?_cons] at h
      simp only [List.cons_append, List.find?_cons]
      cases hv : (v.id == f) with
      | true =>
          simp only [hv] at h
          cases h
      | false =>
          simp only [hv] at h
          simp only [ih h]

theorem find?_of_nodup_mem (users : List User) (u : User)
    (hnd : (users.map User.id).Nodup) (hm : u ∈ users) :
    users.find? (fun v => v.id == u.id) = some u := by
  induction users with
  | nil => cases hm
  | cons v vs ih =>
      simp only [List.map_cons, List.nodup_cons] at hnd
      rcases List.mem_cons.mp hm with rfl | hm'
      · simp [List.find?_cons]
      · have hv : (v.id == u.id) = false := by
          rw [beq_eq_false_iff_ne]
          intro hb
          exact hnd.1 (hb ▸ List.mem_map_of_mem User.id hm')
        rw [List.find?_cons]
        simp only [hv]
        exact ih hnd.2 hm'

theorem countP_id_unique (users : List User) (u : User) (p : User → Bool)
    (hnd : (users.map User.id).Nodup) (hm : u ∈ users) :
    users.countP (fun v => (v.id == u.id) && p v) = if p u then 1 else 0 := by
  induction users with
  | nil => cases hm
  | cons v vs ih =>
      simp only [List.map_cons, List.nodup_cons] at hnd
      rcases List.mem_cons.mp hm with rfl | hm'
      · rw [List.countP_cons]
        have h0 : vs.countP (fun v => (v.id == u.id) && p v) = 0 := by
          rw [List.countP_eq_zero]
          intro w hw hbw
          simp only [Bool.and_eq_true, beq_iff_eq] at hbw
          exact hnd.1 (hbw.1 ▸ List.mem_map_of_mem User.id hw)
        rw [h0]
        simp
      · have hv : ¬((v.id == u.id) && p v) = true := by
          intro hb
          simp only [Bool.and_eq_true, beq_iff_eq] at hb
          exact hnd.1 (hb.1 ▸ List.mem_map_of_mem User.id hm')
        rw [List.countP_cons]
        simp only [hv, if_false]
        exact ih hnd.2 hm'

theorem ids_map_update (users : List User) (c : User → Bool) (g : User → User)
    (hg : ∀ v, (g v).id = v.id) :
    (users.map (fun v => if c v then g v else v)).map User.id
      = users.map User.id := by
  induction users with
  | nil => rfl
  | cons v vs ih =>
      simp only [List.map_cons, ih]
      congr 1
      by_cases hc : c v <;> simp [hc, hg]

theorem countSend_map (id : Nat) (msg : String) (l : List User) :
    countSend id msg (l.map fun v => Effect.sendMessage v.id msg)
      = l.countP (fun v => v.id == id) := by
  induction l with
  | nil => rfl
  | cons v vs ih =>
      simp only [List.map_cons, countSend, List.countP_cons] at *
      rw [ih]
      congr 1
      by_cases h : v.id = id <;> simp [h]

/-! ### Lookup after each store operation -/

theorem beq_of_findUser (db : DB) (f : Nat) (u : User)
    (h : findUser db f = some u) : u.id = f := by
  have := List.find?_some h
  rwa [beq_iff_eq] at this

theorem findUser_addPoints (db : DB) (f : Nat) (u : User) (amt : Int)
    (h : findUser db f = some u) :
    findUser (addPoints db f amt) f = some { u with points := u.points + amt } := by
  have hid := beq_of_findUser db f u h
  have := find?_map_pred db.users f u (fun v => v.id == f)
    (fun v => { v with points := v.points + amt }) (fun _ => rfl) h
  simpa [findUser, addPoints, hid] using this

theorem findUser_deductPoints (db : DB) (f : Nat) (u : User) (amt : Int)
    (h : findUser db f = some u) :
    findUser (deductPoints db f amt) f = some { u with points := u.points - amt } := by
  have hid := beq_of_findUser db f u h
  have := find?_map_pred db.users f u (fun v => v.id == f)
    (fun v => { v with points := v.points - amt }) (fun _ => rfl) h
  simpa [findUser, deductPoints, hid] using this

theorem findUser_updateActivity (now : Nat) (db : DB) (f : Nat) (u : User)
    (h : findUser db f = some u) :
    findUser (updateActivity now db f) f
      = some { u with last_active := now, warned := false } := by
  have hid := beq_of_findUser db f u h
  have := find?_map_pred db.users f u (fun v => v.id == f)
    (fun v => { v with last_active := now, warned := false }) (fun _ => rfl) h
  simpa [findUser, updateActivity, hid] using this

theorem findUser_recordLink (now : Nat) (db : DB) (o f : Nat) (url title : String) :
    findUser (recordLink now db o url title) f = findUser db f := rfl

theorem findUser_warnSweep (now : Nat) (db : DB) (f : Nat) (u : User)
    (h : findUser db f = some u) :
    findUser (warnSweep now db).1 f
      = some (if warnQualifies now u then { u with warned := true } else u) := by
  exact find?_map_pred db.users f u (warnQualifies now)
    (fun v => { v with warned := true }) (fun _ => rfl) h

theorem findUser_penaltySweep (now : Nat) (db : DB) (f : Nat) (u : User)
    (h : findUser db f = some u) :
    findUser (penaltySweep now db).1 f
      = some (if penaltyQualifies now u then { u with points := u.points - 100 } else u) := by
  exact find?_map_pred db.users f u (penaltyQualifies now)
    (fun v => { v with points := v.points - 100 }) (fun _ => rfl) h

theorem getUser_found (now : Nat) (db : DB) (id : Nat) (un : String) (u : User)
    (h : findUser db id = some u) : getUser now db id un = (db, u) := by
  unfold getUser
  rw [h]

/-- The warn sweep sends the warning to a user exactly when that user's row
qualifies (assuming the primary-key invariant that ids are distinct). -/
theorem countSend_warnSweep (now : Nat) (db : DB) (u : User)
    (hnd : (db.users.map User.id).Nodup) (hm : u ∈ db.users) :
    countSend u.id warnMsg (warnSweep now db).2
      = if warnQualifies now u then 1 else 0 := by
  show countSend u.id warnMsg
    ((db.users.filter (warnQualifies now)).map fun v => Effect.sendMessage v.id warnMsg)
      = _
  rw [countSend_map, List.countP_filter]
  exact countP_id_unique db.users u (warnQualifies now) hnd hm

/-- Penalty-sweep analogue of `countSend_warnSweep`. -/
theorem countSend_penaltySweep (now : Nat) (db : DB) (u : User)
    (hnd : (db.users.map User.id).Nodup) (hm : u ∈ db.users) :
    countSend u.id penaltyMsg (penaltySweep now db).2
      = if penaltyQualifies now u then 1 else 0 := by
  show countSend u.id penaltyMsg
    ((db.users.filter (penaltyQualifies now)).map fun v => Effect.sendMessage v.id penaltyMsg)
      = _
  rw [countSend_map, List.countP_filter]
  exact countP_id_unique db.users u (penaltyQualifies now) hnd hm

theorem ids_warnSweep (now : Nat) (db : DB) :
    ((warnSweep now db).1.users.map User.id) = db.users.map User.id :=
  ids_map_update db.users (warnQualifies now) (fun v => { v with warned := true })
    (fun _ => rfl)

theorem ids_penaltySweep (now : Nat) (db : DB) :
    ((penaltySweep now db).1.users.map User.id) = db.users.map User.id :=
  ids_map_update db.users (penaltyQualifies now)
    (fun v => { v with points := v.points - 100 }) (fun _ => rfl)

theorem ids_updateActivity (now : Nat) (db : DB) (id : Nat) :
    ((updateActivity now db id).users.map User.id) = db.users.map User.id :=
  ids_map_update db.users (fun v => v.id == id)
    (fun v => { v with last_active := now, warned := false }) (fun _ => rfl)

/-! ### Ordering of `recentLinks` -/

theorem mem_insertByCreatedDesc (l y : Link) (xs : List Link) :
    y ∈ insertByCreatedDesc l xs ↔ y = l ∨ y ∈ xs := by
  induction xs with
  | nil => simp [insertByCreatedDesc]
  | cons x xs ih =>
      by_cases h : x.created_at ≤ l.created_at
      · simp only [insertByCreatedDesc, if_pos h]
        simp
      · simp only [insertByCreatedDesc, if_neg h]
        simp only [List.mem_cons, ih]
        tauto

theorem pairwise_insertByCreatedDesc (l : Link) (xs : List Link)
    (h : xs.Pairwise linkGE) : (insertByCreatedDesc l xs).Pairwise linkGE := by
  induction xs with
  | nil => simp [insertByCreatedDesc, linkGE]
  | cons x xs ih =>
      rw [List.pairwise_cons] at h
      by_cases hx : x.created_at ≤ l.created_at
      · simp only [insertByCreatedDesc, if_pos hx]
        rw [List.pairwise_cons]
        refine ⟨?_, List.Pairwise.cons h.1 h.2⟩
        intro y hy
        rcases List.mem_cons.mp hy with rfl | hy'
        · exact hx
        · exact le_trans (h.1 y hy') hx
      · simp only [insertByCreatedDesc, if_neg hx]
        rw [List.pairwise_cons]
        refine ⟨?_, ih h.2⟩
        intro y hy
        rcases (mem_insertByCreatedDesc l y xs).mp hy with rfl | hy'
        · exact le_of_not_le hx
        · exact h.1 y hy'

theorem pairwise_sortByCreatedDesc (xs : List Link) :
    (sortByCreatedDesc xs).Pairwise linkGE := by
  induction xs with
  | nil => exact List.Pairwise.nil
  | cons x xs ih => exact pairwise_insertByCreatedDesc x (sortByCreatedDesc xs) ih

/-! ### The `/droplink` regex parse, in general form -/

theorem stripCmd_append (p cs : List Char) : stripCmd p (p ++ cs) = some cs := by
  induction p with
  | nil => rfl
  | cons c p ih => simp [stripCmd, ih]

theorem splitLastSpace_of_no_space (b : List Char) (hb : ∀ c ∈ b, c ≠ ' ') :
    splitLastSpace b = none := by
  induction b with
  | nil => rfl
  | cons c cs ih =>
      have hc : (c == ' ') = false := by
        rw [beq_eq_false_iff_ne]
        exact hb c (List.mem_cons_self c cs)
      rw [splitLastSpace, ih (fun d hd => hb d (List.mem_cons_of_mem c hd))]
      simp [hc]

theorem splitLastSpace_append (p b : List Char)
    (hb : ∀ c ∈ b, c ≠ ' ') (hbne : b ≠ []) :
    splitLastSpace (p ++ ' ' :: b) = some (p, b) := by
  induction p with
  | nil =>
      rw [List.nil_append, splitLastSpace, splitLastSpace_of_no_space b hb]
      simp [hbne]
  | cons c p ih =>
      rw [List.cons_append, splitLastSpace, ih]

/-- General form of the greedy match: whenever the text is the command
followed by a (possibly space-containing) non-empty chunk `u`, a space and a
non-empty space-free final token `t`, the regex assigns `url = u` and
`title = t` — i.e. the FIRST capture group absorbs everything up to the
last space. -/
theorem parseDroplink_split (u t : String) (hu : u.toList ≠ [])
    (ht : t.toList ≠ []) (hts : ∀ c ∈ t.toList, c ≠ ' ') :
    parseDroplink ("/droplink " ++ u ++ " " ++ t) = some (u, t) := by
  have hdata : ("/droplink " ++ u ++ " " ++ t).toList
      = "/droplink ".toList ++ (u.toList ++ ' ' :: t.toList) := by
    show ("/droplink " ++ u ++ " " ++ t).data
      = "/droplink ".data ++ (u.data ++ ' ' :: t.data)
    simp [String.data_append]
  unfold parseDroplink
  rw [hdata, stripCmd_append]
  simp only [splitLastSpace_append u.toList t.toList hts ht, if_neg hu]
  rfl

/-! ### Unfolding the `/droplink` handler on an existing user -/

theorem droplinkHandler_fail (now : Nat) (db : DB) (f : Nat) (un : String)
    (c : Nat) (url title : String) (u : User)
    (h : findUser db f = some u) (hlt : u.points < LINK_POST_COST) :
    droplinkHandler now db f un c url title
      = (db, [Effect.sendMessage c (insufficientMsg u.points)]) := by
  unfold droplinkHandler
  rw [getUser_found now db f un u h]
  simp [hlt]

theorem droplinkHandler_success (now : Nat) (db : DB) (f : Nat) (un : String)
    (c : Nat) (url title : String) (u : User)
    (h : findUser db f = some u) (hge : ¬u.points < LINK_POST_COST) :
    droplinkHandler now db f un c url title
      = (updateActivity now
          (recordLink now (deductPoints db u.id LINK_POST_COST) u.id url title) u.id,
         [Effect.sendMessage c (postedMsg title url)]) := by
  unfold droplinkHandler
  rw [getUser_found now db f un u h]
  simp [hge]

/-- Unfolding of the callback handler on an existing user when the lookup
yields a number. -/
theorem callbackHandler_run (now : Nat) (db : DB) (f : Nat) (un : String)
    (c : Nat) (data : String) (u : User) (n : Int)
    (h : findUser db f = some u) (he : earnedOf (actionOf data) = .num n) :
    callbackHandler now db f un c data
      = (updateActivity now (addPoints db u.id n) u.id,
         [Effect.answerCallback ("+" ++ toString n ++ " points!"),
          Effect.sendMessage c
            ("@" ++ (if u.username = "" then "User" else u.username)
              ++ " earned " ++ toString n ++ " points!")]) := by
  unfold callbackHandler
  rw [getUser_found now db f un u h, he]

/-- Unfolding of the callback handler on an existing user when the lookup
hits an inherited prototype member: `addPoints` throws, so the database
and the outbound effects are exactly those of `getUser` alone. -/
theorem callbackHandler_err (now : Nat) (db : DB) (f : Nat) (un : String)
    (c : Nat) (data : String) (u : User)
    (h : findUser db f = some u) (he : earnedOf (actionOf data) = .inherited) :
    callbackHandler now db f un c data = (db, []) := by
  unfold callbackHandler
  rw [getUser_found now db f un u h, he]

/-- Unfolding of the callback handler on a fresh user with a numeric
lookup: `getUser` first inserts the row, then the press credits and
touches that row. -/
theorem callbackHandler_new_run (now : Nat) (db : DB) (f : Nat) (un : String)
    (c : Nat) (data : String) (n : Int)
    (h : findUser db f = none) (he : earnedOf (actionOf data) = .num n) :
    callbackHandler now db f un c data
      = (updateActivity now
          (addPoints
            { db with users :=
                db.users ++ [⟨f, if un = "" then "unknown" else un, 0, now, false⟩] }
            f n) f,
         [Effect.answerCallback ("+" ++ toString n ++ " points!"),
          Effect.sendMessage c
            ("@" ++ (if un = "" then "User" else un)
              ++ " earned " ++ toString n ++ " points!")]) := by
  unfold callbackHandler getUser
  rw [h, he]

/-- Unfolding of the callback handler on a fresh user with an inherited
prototype lookup: the INSERT of `getUser` persists but nothing after the
throw in `addPoints` runs. -/
theorem callbackHandler_new_err (now : Nat) (db : DB) (f : Nat) (un : String)
    (c : Nat) (data : String)
    (h : findUser db f = none) (he : earnedOf (actionOf data) = .inherited) :
    callbackHandler now db f un c data
      = ({ db with users :=
            db.users ++ [⟨f, if un = "" then "unknown" else un, 0, now, false⟩] },
         []) := by
  unfold callbackHandler getUser
  rw [h, he]

/-! ## Claim theorems -/

/-- C1: for every existing user, a well-formed `/droplink` with balance
≥ 1000 decreases that balance by exactly 1000 and increases the link count
by exactly 1; with balance < 1000 both the balance and the link count are
unchanged and no Link row is created for that user. -/
theorem droplink_cost_and_link_count (now : Nat) (db : DB) (f : Nat)
    (un : String) (c : Nat) (url title : String) (u : User)
    (h : findUser db f = some u) :
    (LINK_POST_COST ≤ u.points →
      (findUser (droplinkHandler now db f un c url title).1 f).map User.points
          = some (u.points - 1000) ∧
      (droplinkHandler now db f un c url title).1.links.length
          = db.links.length + 1) ∧
    (u.points < LINK_POST_COST →
      (findUser (droplinkHandler now db f un c url title).1 f).map User.points
          = some u.points ∧
      (droplinkHandler now db f un c url title).1.links.length = db.links.length ∧
      (droplinkHandler now db f un c url title).1.links.filter
          (fun l => l.user_id == f)
        = db.links.filter (fun l => l.user_id == f)) := by
  constructor
  · intro hge
    have hge' : ¬u.points < LINK_POST_COST := not_lt.mpr hge
    rw [droplinkHandler_success now db f un c url title u h hge']
    have hid := beq_of_findUser db f u h
    rw [hid]
    constructor
    · have h1 : findUser (recordLink now (deductPoints db f LINK_POST_COST) f url title) f
          = some { u with points := u.points - LINK_POST_COST } := by
        rw [findUser_recordLink]
        exact findUser_deductPoints db f u LINK_POST_COST h
      rw [findUser_updateActivity now _ f _ h1]
      simp [LINK_POST_COST]
    · simp [updateActivity, recordLink, deductPoints]
  · intro hlt
    rw [droplinkHandler_fail now db f un c url title u h hlt]
    refine ⟨?_, rfl, rfl⟩
    rw [h]
    rfl

/-- Witness for C1 at a concrete affordable and a concrete unaffordable
user. -/
theorem droplink_cost_and_link_count_witness :
    (findUser dbRich 7 = some richUser ∧ LINK_POST_COST ≤ richUser.points ∧
      (findUser (droplinkHandler 5 dbRich 7 "bob" 1 "http://x" "T").1 7).map User.points
          = some (richUser.points - 1000) ∧
      (droplinkHandler 5 dbRich 7 "bob" 1 "http://x" "T").1.links.length
          = dbRich.links.length + 1) ∧
    (findUser dbPoor 8 = some poorUser ∧ poorUser.points < LINK_POST_COST ∧
      (findUser (droplinkHandler 5 dbPoor 8 "amy" 1 "http://x" "T").1 8).map User.points
          = some poorUser.points ∧
      (droplinkHandler 5 dbPoor 8 "amy" 1 "http://x" "T").1.links.length
          = dbPoor.links.length) := by
  have h1 := (droplink_cost_and_link_count 5 dbRich 7 "bob" 1 "http://x" "T"
    richUser (by decide)).1 (by decide)
  have h2 := (droplink_cost_and_link_count 5 dbPoor 8 "amy" 1 "http://x" "T"
    poorUser (by decide)).2 (by decide)
  exact ⟨⟨by decide, by decide, h1.1, h1.2⟩, ⟨by decide, by decide, h2.1, h2.2.1⟩⟩

/-- C9: a failed `/droplink` (existing user, balance < 1000) returns the
database exactly as it was — every field of every user row, including
`last_active` and `warned`, and the whole links table — and sends only the
insufficient-funds message. -/
theorem droplink_fail_frame (now : Nat) (db : DB) (f : Nat) (un : String)
    (c : Nat) (url title : String) (u : User)
    (h : findUser db f = some u) (hlt : u.points < LINK_POST_COST) :
    (droplinkHandler now db f un c url title).1 = db ∧
    (droplinkHandler now db f un c url title).2
      = [Effect.sendMessage c (insufficientMsg u.points)] := by
  rw [droplinkHandler_fail now db f un c url title u h hlt]
  exact ⟨rfl, rfl⟩

/-- Witness for C9: the poor user's failed post leaves the database
untouched. -/
theorem droplink_fail_frame_witness :
    findUser dbPoor 8 = some poorUser ∧ poorUser.points < LINK_POST_COST ∧
    (droplinkHandler 9 dbPoor 8 "amy" 1 "http://y" "S").1 = dbPoor ∧
    (droplinkHandler 9 dbPoor 8 "amy" 1 "http://y" "S").2
      = [Effect.sendMessage 1 (insufficientMsg poorUser.points)] := by
  have h := droplink_fail_frame 9 dbPoor 8 "amy" 1 "http://y" "S" poorUser
    (by decide) (by decide)
  exact ⟨by decide, by decide, h.1, h.2⟩

/-- C2 as stated is false: the two capture groups of
`\/droplink (.+) (.+)` are greedy, so the url is NOT the first
whitespace-free token — on `/droplink http://x My Title` the stored row has
`url = "http://x My"` and `title = "Title"`, not `url = "http://x"`,
`title = "My Title"`. -/
theorem droplink_first_token_counterexample :
    ((step 5 99 dbDrop (.textMsg 7 "bob" "Bob" 1 "/droplink http://x My Title")).1.links.map
        (fun l => (l.url, l.title))) = [("http://x My", "Title")] ∧
    (("http://x My", "Title") : String × String) ≠ ("http://x", "My Title") := by
  exact ⟨by decide, by decide⟩

/-- C2 (amended): in a `/droplink` message the url argument is everything
between the command and the LAST space (it may itself contain spaces) and
the title is the final whitespace-free chunk; `/droplink http://x My Title`
produces one Link row with `url = "http://x My"`, `title = "Title"`. -/
theorem droplink_greedy_parse :
    (∀ u t : String, u.toList ≠ [] → t.toList ≠ [] → (∀ c ∈ t.toList, c ≠ ' ') →
      parseDroplink ("/droplink " ++ u ++ " " ++ t) = some (u, t)) ∧
    (step 5 99 dbDrop (.textMsg 7 "bob" "Bob" 1 "/droplink http://x My Title")).1.links
      = [⟨0, 7, "http://x My", "Title", 5⟩] := by
  exact ⟨fun u t hu ht hts => parseDroplink_split u t hu ht hts, by decide⟩

/-- Witness for C2 (amended): the general greedy-split statement evaluated
at the scenario input. -/
theorem droplink_greedy_parse_witness :
    ("http://x My" : String).toList ≠ [] ∧ ("Title" : String).toList ≠ [] ∧
    (∀ c ∈ ("Title" : String).toList, c ≠ ' ') ∧
    parseDroplink "/droplink http://x My Title" = some ("http://x My", "Title") := by
  refine ⟨by decide, by decide, by decide, ?_⟩
  have h := droplink_greedy_parse.1 "http://x My" "Title" (by decide) (by decide)
    (by decide)
  have heq : ("/droplink " ++ "http://x My" ++ " " ++ "Title" : String)
      = "/droplink http://x My Title" := by decide
  rwa [heq] at h

/-- C3 as stated is false: for an action kind that is an inherited
`Object.prototype` property name, such as `constructor`, the lookup
`pointsMap[action] || 0` is NOT 0 — it is the inherited truthy member —
and the handler raises an error at `addPoints` instead of performing a
no-op reward. -/
theorem callback_inherited_reward_counterexample :
    earnedOf (actionOf "constructor_1") ≠ Earned.num 0 ∧
    callbackThrows "constructor_1" = true ∧
    (callbackHandler 5 dbRich 7 "bob" 1 "constructor_1").2 = [] := by
  decide

/-- C3 (amended): a button press credits exactly 200 / 350 / 500 points
for like / comment / repost.  For every other action kind the balance is
unchanged, in one of two ways: kinds that are not `Object.prototype`
property names evaluate to reward 0 with no error, while inherited
prototype names (`constructor`, `toString`, ...) make the lookup truthy
and the handler throws at `addPoints` (the balance is still unchanged, but
an error is raised). -/
theorem callback_reward_table (now : Nat) (db : DB) (f : Nat) (un : String)
    (c : Nat) (data : String) (u : User) (h : findUser db f = some u) :
    earnedOf "like" = Earned.num 200 ∧
    earnedOf "comment" = Earned.num 350 ∧
    earnedOf "repost" = Earned.num 500 ∧
    (∀ a : String, a ≠ "like" → a ≠ "comment" → a ≠ "repost" →
      a ∉ objectProtoProps → earnedOf a = Earned.num 0) ∧
    (∀ n : Int, earnedOf (actionOf data) = Earned.num n →
      (findUser (callbackHandler now db f un c data).1 f).map User.points
        = some (u.points + n)) ∧
    (earnedOf (actionOf data) = Earned.inherited →
      callbackThrows data = true ∧
      (findUser (callbackHandler now db f un c data).1 f).map User.points
        = some u.points) := by
  refine ⟨by decide, by decide, by decide, ?_, ?_, ?_⟩
  · intro a h1 h2 h3 h4
    unfold earnedOf
    rw [if_neg h1, if_neg h2, if_neg h3, if_neg h4]
  · intro n he
    rw [callbackHandler_run now db f un c data u n h he]
    have hid := beq_of_findUser db f u h
    rw [hid]
    rw [findUser_updateActivity now _ f _ (findUser_addPoints db f u _ h)]
    rfl
  · intro he
    refine ⟨?_, ?_⟩
    · unfold callbackThrows
      rw [he]
    · rw [callbackHandler_err now db f un c data u h he, h]
      rfl

/-- Witness for C3 (amended): a repost press credits 500; a `toString`
press raises and leaves the balance unchanged. -/
theorem callback_reward_table_witness :
    findUser dbRich 7 = some richUser ∧
    earnedOf (actionOf "repost_3") = Earned.num 500 ∧
    (findUser (callbackHandler 5 dbRich 7 "bob" 1 "repost_3").1 7).map User.points
        = some (richUser.points + 500) ∧
    earnedOf (actionOf "toString_4") = Earned.inherited ∧
    callbackThrows "toString_4" = true ∧
    (findUser (callbackHandler 5 dbRich 7 "bob" 1 "toString_4").1 7).map User.points
        = some richUser.points := by
  have h1 := (callback_reward_table 5 dbRich 7 "bob" 1 "repost_3" richUser
    (by decide)).2.2.2.2.1 500 (by decide)
  have h2 := (callback_reward_table 5 dbRich 7 "bob" 1 "toString_4" richUser
    (by decide)).2.2.2.2.2 (by decide)
  exact ⟨by decide, by decide, h1, by decide, h2.1, h2.2⟩

/-- C10 as stated is false: on data `constructor_1` the handler throws at
`addPoints` (the inherited truthy lookup), so the pressing user's
`last_active` is not touched, `warned` is not cleared, and neither the
acknowledgment nor the broadcast is sent. -/
theorem callback_throw_skips_effects_counterexample :
    callbackThrows "constructor_1" = true ∧
    (callbackHandler 9 dbPoor 8 "amy" 4 "constructor_1").1 = dbPoor ∧
    (callbackHandler 9 dbPoor 8 "amy" 4 "constructor_1").2 = [] ∧
    findUser (callbackHandler 9 dbPoor 8 "amy" 4 "constructor_1").1 8
      = some poorUser ∧
    poorUser.last_active ≠ 9 := by
  decide

/-- C10 (amended): every button press whose action kind is not an
inherited `Object.prototype` property name — zero-reward unrecognized
kinds included — touches activity (`last_active := now`,
`warned := false`), sends the acknowledgment stating the earned amount and
sends the broadcast.  A press whose action kind IS an inherited prototype
name throws at `addPoints`: the user row is untouched and neither
notification is sent. -/
theorem callback_zero_reward_effects (now : Nat) (db : DB) (f : Nat)
    (un : String) (c : Nat) (data : String) (u : User)
    (h : findUser db f = some u) :
    (∀ n : Int, earnedOf (actionOf data) = Earned.num n →
      findUser (callbackHandler now db f un c data).1 f
        = some ⟨u.id, u.username, u.points + n, now, false⟩ ∧
      (callbackHandler now db f un c data).2
        = [Effect.answerCallback ("+" ++ toString n ++ " points!"),
           Effect.sendMessage c
             ("@" ++ (if u.username = "" then "User" else u.username)
               ++ " earned " ++ toString n ++ " points!")]) ∧
    (earnedOf (actionOf data) = Earned.inherited →
      (callbackHandler now db f un c data).1 = db ∧
      (callbackHandler now db f un c data).2 = []) := by
  constructor
  · intro n he
    rw [callbackHandler_run now db f un c data u n h he]
    have hid := beq_of_findUser db f u h
    refine ⟨?_, rfl⟩
    rw [hid]
    rw [findUser_updateActivity now _ f _ (findUser_addPoints db f u _ h)]
    simp [hid]
  · intro he
    rw [callbackHandler_err now db f un c data u h he]
    exact ⟨rfl, rfl⟩

/-- Witness for C10 (amended): an unrecognized non-prototype action
(`star_9`, reward 0) still updates activity and produces both
notifications; a `valueOf` press produces neither and changes nothing. -/
theorem callback_zero_reward_effects_witness :
    findUser dbPoor 8 = some poorUser ∧
    earnedOf (actionOf "star_9") = Earned.num 0 ∧
    findUser (callbackHandler 9 dbPoor 8 "amy" 4 "star_9").1 8
      = some ⟨8, "amy", poorUser.points + 0, 9, false⟩ ∧
    (callbackHandler 9 dbPoor 8 "amy" 4 "star_9").2
      = [Effect.answerCallback ("+" ++ toString (0 : Int) ++ " points!"),
         Effect.sendMessage 4
           ("@" ++ (if poorUser.username = "" then "User" else poorUser.username)
             ++ " earned " ++ toString (0 : Int) ++ " points!")] ∧
    earnedOf (actionOf "valueOf_2") = Earned.inherited ∧
    (callbackHandler 9 dbPoor 8 "amy" 4 "valueOf_2").1 = dbPoor ∧
    (callbackHandler 9 dbPoor 8 "amy" 4 "valueOf_2").2 = [] := by
  have h1 := (callback_zero_reward_effects 9 dbPoor 8 "amy" 4 "star_9" poorUser
    (by decide)).1 0 (by decide)
  have h2 := (callback_zero_reward_effects 9 dbPoor 8 "amy" 4 "valueOf_2" poorUser
    (by decide)).2 (by decide)
  exact ⟨by decide, by decide, h1.1, h1.2, by decide, h2.1, h2.2⟩

/-- C4 as stated is false in its strictness: two links created in the same
second share `created_at`, and then no output order is strictly
newest-first — on `dbTie` the query returns both tied links. -/
theorem recent_links_strict_counterexample :
    recentLinks dbTie 10 = [linkT1, linkT2] ∧
    ¬(recentLinks dbTie 10).Pairwise (fun a b : Link => b.created_at < a.created_at) := by
  refine ⟨by decide, ?_⟩
  intro hp
  rw [show recentLinks dbTie 10 = [linkT1, linkT2] by decide] at hp
  have := (List.pairwise_cons.mp hp).1 linkT2 (List.mem_cons_self linkT2 [])
  exact absurd this (by decide)

/-- C4 (amended): the `/browse` query returns at most 10 links ordered
newest-first with ties permitted (non-increasing `created_at`; the order is
strict whenever creation times are distinct). -/
theorem recent_links_bounded_and_ordered (db : DB) :
    (recentLinks db 10).length ≤ 10 ∧ (recentLinks db 10).Pairwise linkGE := by
  constructor
  · exact List.length_take_le 10 (sortByCreatedDesc db.links)
  · exact (pairwise_sortByCreatedDesc db.links).sublist
      (List.take_sublist 10 (sortByCreatedDesc db.links))

/-- C5 as stated is false at the boundary: the SQL filter is strict
(`... > 172800`), so a user whose elapsed inactivity is EXACTLY 172800
seconds gets no warning and keeps `warned = false`, while the claim (at
least 172800) demands one. -/
theorem warn_boundary_counterexample :
    idleUser.warned = false ∧ (172800 : Nat) - idleUser.last_active = 172800 ∧
    (warnSweep 172800 dbIdle).2 = [] ∧
    findUser (warnSweep 172800 dbIdle).1 1 = some idleUser := by
  decide

/-- C5 (amended): strictly MORE than 172800 seconds of inactivity with
`warned = false` yields exactly one warning per sweep tick and sets
`warned := true`; an activity touch before the next tick clears the flag
and resets the clock, so a tick at most 172800 seconds later neither warns
nor flags the user. -/
theorem warn_after_48h_once (now : Nat) (db : DB) (u : User)
    (hnd : (db.users.map User.id).Nodup) (hm : u ∈ db.users)
    (hw : u.warned = false) (hin : 172800 < now - u.last_active) :
    countSend u.id warnMsg (warnSweep now db).2 = 1 ∧
    findUser (warnSweep now db).1 u.id = some { u with warned := true } ∧
    (∀ t t' : Nat, t' - t ≤ 172800 →
      countSend u.id warnMsg
        (warnSweep t' (updateActivity t (warnSweep now db).1 u.id)).2 = 0 ∧
      findUser (warnSweep t' (updateActivity t (warnSweep now db).1 u.id)).1 u.id
        = some ⟨u.id, u.username, u.points, t, false⟩) := by
  have hq : warnQualifies now u = true := by
    simp [warnQualifies, hw, hin]
  have hfind : findUser db u.id = some u := find?_of_nodup_mem db.users u hnd hm
  have hfound : findUser (warnSweep now db).1 u.id = some { u with warned := true } := by
    rw [findUser_warnSweep now db u.id u hfind]
    simp [hq]
  refine ⟨?_, hfound, ?_⟩
  · rw [countSend_warnSweep now db u hnd hm]
    simp [hq]
  · intro t t' hle
    have h2 : findUser (updateActivity t (warnSweep now db).1 u.id) u.id
        = some ⟨u.id, u.username, u.points, t, false⟩ := by
      have := findUser_updateActivity t (warnSweep now db).1 u.id _ hfound
      simpa using this
    have hnd2 : ((updateActivity t (warnSweep now db).1 u.id).users.map User.id).Nodup := by
      rw [ids_updateActivity, ids_warnSweep]
      exact hnd
    have hm2 : (⟨u.id, u.username, u.points, t, false⟩ : User)
        ∈ (updateActivity t (warnSweep now db).1 u.id).users :=
      List.mem_of_find?_eq_some h2
    have hq2 : warnQualifies t' (⟨u.id, u.username, u.points, t, false⟩ : User) = false := by
      have hnl : ¬(172800 < t' - t) := not_lt.mpr hle
      simp [warnQualifies, hnl]
    constructor
    · have := countSend_warnSweep t' (updateActivity t (warnSweep now db).1 u.id)
        (⟨u.id, u.username, u.points, t, false⟩ : User) hnd2 hm2
      simpa [hq2] using this
    · have := findUser_warnSweep t' (updateActivity t (warnSweep now db).1 u.id) u.id _ h2
      simpa [hq2] using this

/-- Witness for C5 (amended) on a concrete one-user database. -/
theorem warn_after_48h_once_witness :
    (dbIdle.users.map User.id).Nodup ∧ idleUser ∈ dbIdle.users ∧
    idleUser.warned = false ∧ 172800 < 172801 - idleUser.last_active ∧
    countSend idleUser.id warnMsg (warnSweep 172801 dbIdle).2 = 1 ∧
    findUser (warnSweep 172801 dbIdle).1 idleUser.id
      = some { idleUser with warned := true } ∧
    (100 : Nat) - 5 ≤ 172800 ∧
    countSend idleUser.id warnMsg
      (warnSweep 100 (updateActivity 5 (warnSweep 172801 dbIdle).1 idleUser.id)).2 = 0 := by
  have h := warn_after_48h_once 172801 dbIdle idleUser (by decide) (by decide)
    (by decide) (by decide)
  exact ⟨by decide, by decide, by decide, by decide, h.1, h.2.1, by decide,
    (h.2.2 5 100 (by decide)).1⟩

/-- C6 as stated is false at the boundary: the SQL filter is strict
(`... > 259200`), so a user whose elapsed inactivity is EXACTLY 259200
seconds is not penalized, while the claim (at least 259200) demands a
100-point deduction. -/
theorem penalty_boundary_counterexample :
    (259200 : Nat) - idleWarned.last_active = 259200 ∧
    (penaltySweep 259200 dbIdleWarned).2 = [] ∧
    findUser (penaltySweep 259200 dbIdleWarned).1 2 = some idleWarned := by
  decide

/-- C6 (amended): strictly MORE than 259200 seconds of inactivity costs
exactly 100 points per penalty-sweep tick, regardless of the `warned` flag,
and repeats on every subsequent qualifying tick (no once-only guard): a
second tick while still inactive deducts another 100. -/
theorem penalty_after_72h_each_tick (now now' : Nat) (db : DB) (u : User)
    (hnd : (db.users.map User.id).Nodup) (hm : u ∈ db.users)
    (hin : 259200 < now - u.last_active) :
    countSend u.id penaltyMsg (penaltySweep now db).2 = 1 ∧
    findUser (penaltySweep now db).1 u.id
      = some { u with points := u.points - 100 } ∧
    (259200 < now' - u.last_active →
      countSend u.id penaltyMsg (penaltySweep now' (penaltySweep now db).1).2 = 1 ∧
      findUser (penaltySweep now' (penaltySweep now db).1).1 u.id
        = some ⟨u.id, u.username, u.points - 100 - 100, u.last_active, u.warned⟩) := by
  have hq : penaltyQualifies now u = true := by
    simp [penaltyQualifies, hin]
  have hfind : findUser db u.id = some u := find?_of_nodup_mem db.users u hnd hm
  have hfound : findUser (penaltySweep now db).1 u.id
      = some { u with points := u.points - 100 } := by
    rw [findUser_penaltySweep now db u.id u hfind]
    simp [hq]
  refine ⟨?_, hfound, ?_⟩
  · rw [countSend_penaltySweep now db u hnd hm]
    simp [hq]
  · intro hin'
    have hnd2 : ((penaltySweep now db).1.users.map User.id).Nodup := by
      rw [ids_penaltySweep]
      exact hnd
    have hm2 : ({ u with points := u.points - 100 } : User) ∈ (penaltySweep now db).1.users :=
      List.mem_of_find?_eq_some hfound
    have hq2 : penaltyQualifies now' ({ u with points := u.points - 100 } : User) = true := by
      simp [penaltyQualifies, hin']
    constructor
    · have := countSend_penaltySweep now' (penaltySweep now db).1
        ({ u with points := u.points - 100 } : User) hnd2 hm2
      simpa [hq2] using this
    · have := findUser_penaltySweep now' (penaltySweep now db).1 u.id _ hfound
      simpa [hq2] using this

/-- Witness for C6 (amended): an already-warned user loses 100 on each of
two consecutive qualifying ticks, going negative. -/
theorem penalty_after_72h_each_tick_witness :
    idleWarned.warned = true ∧
    (dbIdleWarned.users.map User.id).Nodup ∧ idleWarned ∈ dbIdleWarned.users ∧
    259200 < 259201 - idleWarned.last_active ∧
    countSend idleWarned.id penaltyMsg (penaltySweep 259201 dbIdleWarned).2 = 1 ∧
    findUser (penaltySweep 259201 dbIdleWarned).1 idleWarned.id
      = some { idleWarned with points := idleWarned.points - 100 } ∧
    countSend idleWarned.id penaltyMsg
      (penaltySweep 259300 (penaltySweep 259201 dbIdleWarned).1).2 = 1 ∧
    findUser (penaltySweep 259300 (penaltySweep 259201 dbIdleWarned).1).1 idleWarned.id
      = some ⟨2, "cid", 50 - 100 - 100, 0, true⟩ := by
  have h := penalty_after_72h_each_tick 259201 259300 dbIdleWarned idleWarned
    (by decide) (by decide) (by decide)
  have h2 := h.2.2 (by decide)
  exact ⟨by decide, by decide, by decide, by decide, h.1, h.2.1, h2.1, h2.2⟩

/-- C7: a `/stats` message from a non-admin produces no reply and no state
change at all (the whole dispatch returns the database unchanged with zero
effects); for the admin the handler replies with the user count, the link
count and the balance sum, and an empty users table sums to 0. -/
theorem stats_admin_gate (now admin : Nat) (db : DB) (f : Nat)
    (un fn : String) (c : Nat) :
    (f ≠ admin → step now admin db (.textMsg f un fn c "/stats") = (db, [])) ∧
    statsHandler db admin admin c
      = (db, [Effect.sendMessage c
          ("📈 <b>Bot Stats</b>\nUsers: " ++ toString (countUsers db)
            ++ "\nLinks: " ++ toString (countLinks db)
            ++ "\nTotal Points: " ++ toString (sumAllPoints db))]) ∧
    (db.users = [] → sumAllPoints db = 0) := by
  refine ⟨?_, ?_, ?_⟩
  · intro hne
    have h1 : strContains "/stats" "/start" = false := by decide
    have h2 : strContains "/stats" "/profile" = false := by decide
    have h3 : parseDroplink "/stats" = none := by decide
    have h4 : strContains "/stats" "/browse" = false := by decide
    have h5 : strContains "/stats" "/stats" = true := by decide
    have h6 : ((trimChars ("/stats" : String).toList).isEmpty
        || ((trimChars ("/stats" : String).toList).headD ' ' == '/')) = true := by decide
    simp only [step, h1, h2, h3, h4, h5]
    simp [andThen, statsHandler, hne, messageHandler, h6]
    intro hcon
    decide
  · simp [statsHandler]
  · intro h0
    simp [sumAllPoints, h0]

/-- Witness for C7 at a concrete non-admin sender and an empty table. -/
theorem stats_admin_gate_witness :
    (5 : Nat) ≠ 99 ∧
    step 0 99 dbRich (.textMsg 5 "eve" "E" 1 "/stats") = (dbRich, []) ∧
    dbEmpty.users = [] ∧ sumAllPoints dbEmpty = 0 := by
  refine ⟨by decide, (stats_admin_gate 0 99 dbRich 5 "eve" "E" 1).1 (by decide),
    rfl, (stats_admin_gate 0 99 dbEmpty 5 "eve" "E" 1).2.2 rfl⟩

/-- C8 as stated is false: `/browse` (like `/stats`) never calls `getUser`,
so an identity whose only interaction is a `/browse` message ends up with
no User record at all. -/
theorem browse_creates_no_user_counterexample :
    findUser (step 0 99 dbEmpty (.textMsg 5 "alice" "A" 1 "/browse")).1 5 = none ∧
    (step 0 99 dbEmpty (.textMsg 5 "alice" "A" 1 "/browse")).1.users = [] := by
  decide

/-- C8 (amended): interactions that resolve the user (`/start`, `/profile`,
a parsed `/droplink`, a button press, non-command free text) leave a User
record for the sender — shown here for every button press — with first
contact creating `points = 0`, `warned = false` (`username` stored as
`"unknown"` when empty, `last_active = now`); `getUser` on an existing id
returns the stored record and changes nothing.  `/browse` and `/stats`
alone create no record. -/
theorem getUser_contract :
    (∀ (now : Nat) (db : DB) (id : Nat) (un : String),
      findUser db id = none →
        findUser (getUser now db id un).1 id
            = some ⟨id, if un = "" then "unknown" else un, 0, now, false⟩ ∧
        (getUser now db id un).2.points = 0 ∧
        (getUser now db id un).2.warned = false) ∧
    (∀ (now : Nat) (db : DB) (id : Nat) (un : String) (u : User),
      findUser db id = some u → getUser now db id un = (db, u)) ∧
    (∀ (now admin : Nat) (db : DB) (f : Nat) (un : String) (c : Nat) (data : String),
      (findUser (step now admin db (.buttonPress f un c data)).1 f).isSome = true) := by
  refine ⟨?_, ?_, ?_⟩
  · intro now db id un h
    refine ⟨?_, ?_, ?_⟩
    · unfold getUser
      rw [h]
      exact find?_append_new db.users id _ h (by simp)
    · unfold getUser
      rw [h]
    · unfold getUser
      rw [h]
  · intro now db id un u h
    exact getUser_found now db id un u h
  · intro now admin db f un c data
    show (findUser (callbackHandler now db f un c data).1 f).isSome = true
    cases hfind : findUser db f with
    | some u =>
        cases he : earnedOf (actionOf data) with
        | num n =>
            rw [callbackHandler_run now db f un c data u n hfind he]
            have hid := beq_of_findUser db f u hfind
            rw [hid]
            rw [findUser_updateActivity now _ f _ (findUser_addPoints db f u _ hfind)]
            rfl
        | inherited =>
            rw [callbackHandler_err now db f un c data u hfind he, hfind]
            rfl
    | none =>
        have hstored : findUser
            { db with users :=
                db.users ++ [⟨f, if un = "" then "unknown" else un, 0, now, false⟩] } f
            = some ⟨f, if un = "" then "unknown" else un, 0, now, false⟩ :=
          find?_append_new db.users f _ hfind (by simp)
        cases he : earnedOf (actionOf data) with
        | num n =>
            rw [callbackHandler_new_run now db f un c data n hfind he]
            rw [findUser_updateActivity now _ f _ (findUser_addPoints _ f _ _ hstored)]
            rfl
        | inherited =>
            rw [callbackHandler_new_err now db f un c data hfind he, hstored]
            rfl

/-- Witness for C8 (amended): fresh creation, existing lookup and a button
press by a brand-new identity. -/
theorem getUser_contract_witness :
    findUser dbEmpty 5 = none ∧
    findUser (getUser 3 dbEmpty 5 "al").1 5 = some ⟨5, "al", 0, 3, false⟩ ∧
    (getUser 3 dbEmpty 5 "al").2.points = 0 ∧
    findUser dbRich 7 = some richUser ∧
    getUser 4 dbRich 7 "zz" = (dbRich, richUser) ∧
    (findUser (step 0 99 dbEmpty (.buttonPress 6 "new" 1 "like_1")).1 6).isSome = true := by
  have h1 := getUser_contract.1 3 dbEmpty 5 "al" (by decide)
  have h2 := getUser_contract.2.1 4 dbRich 7 "zz" richUser (by decide)
  have h3 := getUser_contract.2.2 0 99 dbEmpty 6 "new" 1 "like_1"
  have hif : (if ("al" : String) = "" then "unknown" else "al") = "al" := by decide
  have h1a := h1.1
  rw [hif] at h1a
  exact ⟨by decide, h1a, h1.2.1, by decide, h2, h3⟩

end EngageBot
